import Mathlib

/-!
Verification of the HandSynth gesture-to-music core against its source.

JavaScript numbers are modelled as exact rationals; the positive infinity
produced by `calculateDistance` on missing points is modelled by an explicit
two-constructor type `JsNum`.  Stateful modules are modelled by explicit
state records threaded through each operation; audio-engine and visual
side effects are recorded as explicit event lists.
-/

namespace HandSynth

/-- Decidable equality for `Except`, used to evaluate concrete results of the
fallible music-theory functions. -/
instance {ε α : Type} [DecidableEq ε] [DecidableEq α] : DecidableEq (Except ε α) := fun x y =>
  match x, y with
  | .ok a, .ok b =>
      if h : a = b then .isTrue (by rw [h]) else .isFalse (by simp [h])
  | .error a, .error b =>
      if h : a = b then .isTrue (by rw [h]) else .isFalse (by simp [h])
  | .ok _, .error _ => .isFalse (by simp)
  | .error _, .ok _ => .isFalse (by simp)

/-- A 3D landmark point (`x`, `y` normalized image coordinates; `z` is the
optional depth coordinate, `point.z || 0` in the source defaults it to 0). -/
structure Point where
  x : ℚ
  y : ℚ
  z : Option ℚ
deriving DecidableEq, Repr

/-- A JavaScript number that is either finite or positive infinity.  Only the
fragment reachable from `calculateDistance` is needed: distances are either
finite nonnegative values or `Infinity` (returned for missing points). -/
inductive JsNum where
  | fin (q : ℚ)
  | inf
deriving DecidableEq, Repr

/-- Rational stand-in for `Math.sqrt` on finite arguments.  `Math.sqrt` of a
rational is irrational in general; no claim in this development depends on the
finite value of a distance, only on the `Infinity` branch and on clamping, so
an integer square-root approximation suffices. -/
def ratSqrt (q : ℚ) : ℚ :=
  (Nat.sqrt (Int.toNat (Rat.floor q)) : ℚ)

/-- `mapRange` from `src/utils/math.js`: clamps `value` into `[inMin, inMax]`
and then maps linearly onto `[outMin, outMax]`. -/
def mapRange (value inMin inMax outMin outMax : ℚ) : ℚ :=
  let v := max inMin (min inMax value)
  ((v - inMin) * (outMax - outMin)) / (inMax - inMin) + outMin

/-- `calculateDistance` from `src/utils/math.js`: returns `Infinity` when
either point is null/undefined (modelled by `none`), else the Euclidean
distance with the depth coordinate defaulting to 0. -/
def calculateDistance (point1 point2 : Option Point) : JsNum :=
  match point1, point2 with
  | some p1, some p2 =>
      let dx := p1.x - p2.x
      let dy := p1.y - p2.y
      let dz := p1.z.getD 0 - p2.z.getD 0
      .fin (ratSqrt (dx * dx + dy * dy + dz * dz))
  | _, _ => .inf

/-- `lerp` from `src/utils/math.js` (also duplicated as a method on the
black-hole visualizer class). -/
def lerp (start finish t : ℚ) : ℚ :=
  start * (1 - t) + finish * t

/-- `MIN_PINCH_DIST` from `src/config.js`. -/
def MIN_PINCH_DIST : ℚ := 1 / 100

/-- `MAX_PINCH_DIST` from `src/config.js`. -/
def MAX_PINCH_DIST : ℚ := 1 / 10

/-- `Math.min(a, b)` where `a` may be `Infinity` and `b` is finite. -/
def jsMin (a : JsNum) (b : ℚ) : ℚ :=
  match a with
  | .fin q => min q b
  | .inf => b

/-- Subtraction `a - b` with a possibly infinite minuend. -/
def jsSub (a : JsNum) (b : ℚ) : JsNum :=
  match a with
  | .fin q => .fin (q - b)
  | .inf => .inf

/-- Division `a / b` by a positive finite divisor, with a possibly infinite
dividend. -/
def jsDiv (a : JsNum) (b : ℚ) : JsNum :=
  match a with
  | .fin q => .fin (q / b)
  | .inf => .inf

/-- `mapPinchToReverb` from the hand-tracking module: linear map of the pinch
distance onto `[0,1]`, clamped.  An infinite distance saturates to 1 because
`Math.min(Infinity, 1) = 1`. -/
def mapPinchToReverb (pinchDist : JsNum) : ℚ :=
  let wetLevel := jsDiv (jsSub pinchDist MIN_PINCH_DIST) (MAX_PINCH_DIST - MIN_PINCH_DIST)
  max 0 (jsMin wetLevel 1)

/-- `mapFingerToVolume` from the hand-tracking module: identical linear map
for the thumb-to-middle-finger spread distance. -/
def mapFingerToVolume (fingerDist : JsNum) : ℚ :=
  let volume := jsDiv (jsSub fingerDist MIN_PINCH_DIST) (MAX_PINCH_DIST - MIN_PINCH_DIST)
  max 0 (jsMin volume 1)

/-- The 12-note chromatic table `notes` from `src/config.js` (written as a
concatenation of two half-octaves; the value is the plain 12-element list). -/
def notes : List String :=
  ["C", "C#", "D", "D#", "E", "F"] ++ ["F#", "G", "G#", "A", "A#", "B"]

/-- The `scales` table from `src/config.js`.  Property access on a key absent
from the object yields `undefined`, modelled by `none`. -/
def scalesMap : String → Option (List ℤ)
  | "major" => some [0, 2, 4, 5, 7, 9, 11, 12]
  | "minor" => some [0, 2, 3, 5, 7, 8, 10, 12]
  | "pentatonic" => some [0, 2, 4, 7, 9, 12]
  | "majorBlues" => some [0, 3, 5, 6, 7, 10, 12]
  | "minorBlues" => some [0, 3, 5, 6, 7, 10, 12]
  | "chromatic" => some [0, 1, 2, 3, 4, 5, 6, 7, 8, 9, 10, 11, 12]
  | _ => none

/-- The `chordTypes` interval table from `src/config.js`. -/
def chordTypesMap : String → Option (List ℤ)
  | "major" => some [0, 4, 7]
  | "minor" => some [0, 3, 7]
  | "minor7" => some [0, 3, 7, 10]
  | "diminished" => some [0, 3, 6]
  | "augmented" => some [0, 4, 8]
  | "sus4" => some [0, 5, 7]
  | "dominant7" => some [0, 4, 7, 10]
  | "major7" => some [0, 4, 7, 11]
  | _ => none

/-- `Array.prototype.indexOf`: index of the first occurrence, `-1` if absent. -/
def jsIndexOf : List String → String → ℤ
  | [], _ => -1
  | a :: as, s =>
      if a = s then 0
      else
        let r := jsIndexOf as s
        if r = -1 then -1 else r + 1

/-- JavaScript string indexing `l[i]` for the note-name table; the branches
with `i` out of range are unreachable in every configuration exercised here
(the computed index is a nonnegative residue below the list length). -/
def jsGetStr (l : List String) (i : ℤ) : String :=
  if 0 ≤ i then l.getD i.toNat "undefined" else "undefined"

/-- JavaScript array indexing `l[i]` for semitone tables; out-of-range access
is unreachable here (the index is a residue modulo the list length). -/
def jsGetInt (l : List ℤ) (i : ℤ) : ℤ :=
  if 0 ≤ i then l.getD i.toNat 0 else 0

/-- A chord value as built by `getChordFromPosition`: root name, type
identifier, constituent note names, display name. -/
structure Chord where
  root : String
  type : String
  notes : List String
  name : String
deriving DecidableEq, Repr

/-- The mutable application `state` from `src/config.js` (the fields the core
reads or writes; UI-only fields are omitted). -/
structure AppState where
  handDetected : Bool
  isLeftHandPresent : Bool
  isRightHandPresent : Bool
  leftHandLandmarks : Option (List Point)
  rightHandLandmarks : Option (List Point)
  lastRightHandY : ℚ
  lastLeftHandY : ℚ
  lastMelodyNote : Option String
  lastChord : Option Chord
  audioStarted : Bool
  selectedScale : String
  selectedRoot : String
  octave : ℤ
  selectedSound : String
  leftHandIsPlaying : Bool
  rightHandIsPlaying : Bool
  currentMelodyNote : Option String
  currentChord : Option Chord
  leftHandVolume : ℚ
  rightHandVolume : ℚ
deriving DecidableEq, Repr

/-- The initial `state` object literal from `src/config.js`. -/
def initialState : AppState :=
  { handDetected := false
    isLeftHandPresent := false
    isRightHandPresent := false
    leftHandLandmarks := none
    rightHandLandmarks := none
    lastRightHandY := 0
    lastLeftHandY := 0
    lastMelodyNote := none
    lastChord := none
    audioStarted := false
    selectedScale := "major"
    selectedRoot := "C"
    octave := 4
    selectedSound := "pad"
    leftHandIsPlaying := false
    rightHandIsPlaying := false
    currentMelodyNote := none
    currentChord := none
    leftHandVolume := 1 / 2
    rightHandVolume := 1 / 2 }

/-- `getNoteFromPosition` from `src/audio/music-theory.js`.  The function
first records `lastRightHandY := y` (the derived `positionChanged` flag is
computed but unused in the source and omitted), then looks up the scale
table; on an unknown scale the source throws a `TypeError` when reading
`scaleArray.length`, modelled by `Except.error`.  Returns the updated state
together with the note name. -/
def getNoteFromPosition (y : ℚ) (scale : String) (st : AppState) :
    AppState × Except String String :=
  let st := { st with lastRightHandY := y }
  let position : ℤ := Rat.floor (mapRange y 0 1 14 0)
  match scalesMap scale with
  | none => (st, .error "TypeError")
  | some scaleArray =>
      let octaveOffset : ℤ := Int.fdiv position (scaleArray.length : ℤ)
      let indexInScale : ℤ := Int.tmod position (scaleArray.length : ℤ)
      let semitones := jsGetInt scaleArray indexInScale
      let rootIndex := jsIndexOf notes st.selectedRoot
      let midiBase := 60 + rootIndex
      let midiNote := midiBase + semitones + (st.octave - 4 + octaveOffset) * 12
      let noteIndex := Int.tmod midiNote 12
      let noteOctave := Int.fdiv midiNote 12 - 1
      (st, .ok (jsGetStr notes noteIndex ++ toString noteOctave))

/-- The `chordNameMap` literal inside `getChordFromPosition`, combined with
the `chordNameMap[chordType] || chordType` fallback: an absent key gives
`undefined` (falsy) and the empty string for `major` is also falsy, so both
fall back to the raw type identifier. -/
def chordDisplaySuffix (chordType : String) : String :=
  let sym : Option String :=
    match chordType with
    | "major" => some ""
    | "minor" => some "m"
    | "minor7" => some "m7"
    | "diminished" => some "dim"
    | "augmented" => some "aug"
    | "sus4" => some "sus4"
    | "dominant7" => some "7"
    | "major7" => some "maj7"
    | _ => none
  match sym with
  | some s => if s = "" then chordType else s
  | none => chordType

/-- `getChordFromPosition` from `src/audio/music-theory.js`.  Records
`lastLeftHandY := y`, then maps `y` (inverted, clamped) onto chord positions
0–7; an unknown `state.selectedScale` throws a `TypeError` at
`scaleArray.length` (modelled by `Except.error`).  Chord type is taken from
one fixed table per named scale, any other table entry falling back to
major/minor by degree parity. -/
def getChordFromPosition (y : ℚ) (st : AppState) :
    AppState × Except String Chord :=
  let st := { st with lastLeftHandY := y }
  let position : ℤ := Rat.floor (mapRange y 0 1 7 0)
  match scalesMap st.selectedScale with
  | none => (st, .error "TypeError")
  | some scaleArray =>
      let scaleDegree : ℤ := Int.tmod position (scaleArray.length : ℤ)
      let rootIndex := jsIndexOf notes st.selectedRoot
      let degreeOffset := jsGetInt scaleArray scaleDegree
      let chordRootIndex := Int.tmod (rootIndex + degreeOffset) 12
      let chordRoot := jsGetStr notes chordRootIndex
      let chordType :=
        if st.selectedScale = "major" then
          jsGetStr ["major", "minor", "minor", "major", "dominant7", "minor", "diminished"]
            (Int.tmod scaleDegree 7)
        else if st.selectedScale = "minor" then
          jsGetStr ["minor", "diminished", "major", "minor", "minor", "major", "major"]
            (Int.tmod scaleDegree 7)
        else if st.selectedScale = "majorBlues" then
          jsGetStr ["dominant7", "diminished", "dominant7", "diminished", "dominant7", "minor", "diminished"]
            (Int.tmod scaleDegree 7)
        else if st.selectedScale = "minorBlues" then
          jsGetStr ["minor7", "dominant7", "minor7", "diminished", "minor7", "diminished", "dominant7"]
            (Int.tmod scaleDegree 7)
        else
          if Int.tmod scaleDegree 2 = 0 then "major" else "minor"
      let intervals := (chordTypesMap chordType).getD []
      let octaveOffset : ℤ := Int.fdiv position 7
      let midiBase := 48 + chordRootIndex + (st.octave - 4 + octaveOffset) * 12
      let chordNotes := intervals.map fun interval =>
        let midiNote := midiBase + interval
        let noteIndex := Int.tmod midiNote 12
        let noteOctave := Int.fdiv midiNote 12 - 1
        jsGetStr notes noteIndex ++ toString noteOctave
      (st, .ok { root := chordRoot
                 type := chordType
                 notes := chordNotes
                 name := chordRoot ++ chordDisplaySuffix chordType })

/-- Which of the two voices an audio-engine call targets. -/
inductive Voice where
  | melody
  | harmony
deriving DecidableEq, Repr

/-- One observable audio-engine or visual side effect issued by the voice
controller.  Time offsets are seconds relative to `Tone.now()`; `volumeWrite`
carries the argument passed to `Tone.gainToDb` (which is injective, so no
information is lost by not converting to decibels). -/
inductive AEvent where
  | attack (voice : Voice) (noteNames : List String) (timeOff : ℚ) (velocity : ℚ)
  | release (voice : Voice) (timeOff : Option ℚ)
  | releaseAll (voice : Voice) (timeOff : Option ℚ)
  | dispose (voice : Voice)
  | create (voice : Voice)
  | volumeWrite (voice : Voice) (gainArg : ℚ)
  | wetWrite (w : ℚ)
  | pulse (intensity : ℚ)
deriving DecidableEq, Repr

/-- Which audio-engine calls succeed; a `false` field means the corresponding
Tone.js call throws when invoked (e.g. the engine is not started yet). -/
structure EngineBehavior where
  attackOk : Bool
  releaseOk : Bool
  releaseAllOk : Bool
  volumeOk : Bool
  reverbOk : Bool
deriving DecidableEq, Repr

/-- The engine on which every call succeeds. -/
def reliable : EngineBehavior :=
  { attackOk := true, releaseOk := true, releaseAllOk := true,
    volumeOk := true, reverbOk := true }

/-- The module-level mutable bindings of `src/audio/synth.js`: the two synth
instances (represented by generation counters, bumped on each rebuild; `none`
before `setupAudio`) and the shared reverb unit carrying its wet level. -/
structure Modules where
  melodySynth : Option ℕ
  harmonySynth : Option ℕ
  reverbUnit : Option ℚ
deriving DecidableEq, Repr

/-- Result of one voice-controller operation: the updated application state
and module bindings, the audio/visual events issued (in order; UI-only calls
such as `updateNoteDisplay` and `console.log` are not modelled), and whether
an exception escaped the operation (`thrown = true` only for operations with
no enclosing try/catch). -/
structure OpResult where
  st : AppState
  m : Modules
  events : List AEvent
  thrown : Bool
deriving DecidableEq, Repr

/-- `playMelodyNote` from `src/audio/synth.js`.  `lastMelodyNote` is updated
before the try block; inside it, an idle voice attacks immediately (velocity
0.8, pulse 1.0) and a playing voice with a changed note does a scheduled
release (now+0.02) then attack (now+0.07, velocity 0.7) with pulse 0.8.  A
throwing engine call is caught: statements after the failing call are
skipped, nothing propagates. -/
def playMelodyNote (eng : EngineBehavior) (note : String) (st : AppState)
    (m : Modules) : OpResult :=
  if st.audioStarted = false ∨ m.melodySynth = none then
    ⟨st, m, [], false⟩
  else
    let noteChanged := some note ≠ st.lastMelodyNote
    let st1 := { st with lastMelodyNote := some note }
    if st1.rightHandIsPlaying = false then
      if eng.attackOk then
        ⟨{ st1 with rightHandIsPlaying := true, currentMelodyNote := some note }, m,
          [.attack .melody [note] 0 (4/5), .pulse 1], false⟩
      else
        ⟨st1, m, [], false⟩
    else if noteChanged then
      if eng.releaseOk then
        if eng.attackOk then
          ⟨{ st1 with currentMelodyNote := some note }, m,
            [.release .melody (some (1/50)), .attack .melody [note] (7/100) (7/10),
             .pulse (4/5)], false⟩
        else
          ⟨st1, m, [.release .melody (some (1/50))], false⟩
      else
        ⟨st1, m, [], false⟩
    else
      ⟨st1, m, [], false⟩

/-- The pulse intensity computed for a chord change in `playChord`:
`chord.type.includes('7') ? 1.0 : chord.type === 'diminished' ? 1.2 : 0.8`. -/
def chordChangePulse (chord : Chord) : ℚ :=
  if chord.type.contains '7' then 1
  else if chord.type = "diminished" then 6/5
  else 4/5

/-- `playChord` from `src/audio/synth.js`.  Chord change is detected by
comparing `JSON.stringify` of the note arrays, i.e. element-wise equality of
the note-name lists.  A first-time chord attacks immediately; a changed chord
does `releaseAll(now - 0.005)` and then, via nested `setTimeout`s (150 ms
then 50 ms), disposes the harmony synth, recreates it, restores its volume
and attacks the new chord.  The timer chain is modelled as firing to
completion with no interleaving (its state writes and events appear in the
result); a failure inside a timer callback would be an uncaught asynchronous
error in JavaScript, outside the per-frame call, and is not modelled. -/
def playChord (eng : EngineBehavior) (chord : Chord) (st : AppState)
    (m : Modules) : OpResult :=
  if st.audioStarted = false ∨ m.harmonySynth = none then
    ⟨st, m, [], false⟩
  else
    let chordChanged :=
      match st.lastChord with
      | none => true
      | some lc => chord.notes ≠ lc.notes
    if st.leftHandIsPlaying = false then
      if eng.attackOk then
        ⟨{ st with leftHandIsPlaying := true, currentChord := some chord,
                   lastChord := some chord }, m,
          [.attack .harmony chord.notes 0 (3/5), .pulse 1], false⟩
      else
        ⟨st, m, [], false⟩
    else if chordChanged then
      if eng.releaseAllOk then
        ⟨{ st with currentChord := some chord, lastChord := some chord,
                   leftHandIsPlaying := true },
          { m with harmonySynth := some ((m.harmonySynth.getD 0) + 1) },
          [.releaseAll .harmony (some (-(1/200))), .dispose .harmony,
           .create .harmony, .volumeWrite .harmony (st.leftHandVolume * (3/5)),
           .attack .harmony chord.notes (1/20) (3/5),
           .pulse (chordChangePulse chord)], false⟩
      else
        ⟨st, m, [], false⟩
    else
      ⟨st, m, [], false⟩

/-- `stopMelody` from `src/audio/synth.js`.  There is no try/catch: a
throwing `triggerRelease` propagates out of the call (`thrown = true`) and
the playing flag is left set. -/
def stopMelody (eng : EngineBehavior) (st : AppState) (m : Modules) : OpResult :=
  if st.rightHandIsPlaying = true ∧ m.melodySynth ≠ none then
    if eng.releaseOk then
      ⟨{ st with rightHandIsPlaying := false, currentMelodyNote := none }, m,
        [.release .melody none], false⟩
    else
      ⟨st, m, [], true⟩
  else
    ⟨st, m, [], false⟩

/-- `stopChord` from `src/audio/synth.js`.  No try/catch: a throwing
`releaseAll` propagates.  The defensive 100 ms rebuild timer re-checks
`leftHandIsPlaying`, which the synchronous code below it has already reset to
false, so with no intervening `playChord` the timer performs no action and is
modelled as doing nothing. -/
def stopChord (eng : EngineBehavior) (st : AppState) (m : Modules) : OpResult :=
  if st.leftHandIsPlaying = true ∧ m.harmonySynth ≠ none then
    if eng.releaseAllOk then
      ⟨{ st with leftHandIsPlaying := false, currentChord := none }, m,
        [.releaseAll .harmony none], false⟩
    else
      ⟨st, m, [], true⟩
  else
    ⟨st, m, [], false⟩

/-- `updateSynths` from `src/audio/synth.js`: inside a try/catch, releases
both synths (when present), then a 100 ms timer disposes and recreates both,
restores volumes from the stored per-hand gains and resets both voices to
idle.  The timer chain is modelled as firing to completion.  A throwing
release is caught and the timer is never scheduled. -/
def updateSynths (eng : EngineBehavior) (st : AppState) (m : Modules) : OpResult :=
  let melodyRelease : Option (List AEvent) :=
    if m.melodySynth ≠ none then
      if eng.releaseOk then some [.release .melody none] else none
    else some []
  match melodyRelease with
  | none => ⟨st, m, [], false⟩
  | some ev1 =>
    let harmonyRelease : Option (List AEvent) :=
      if m.harmonySynth ≠ none then
        if eng.releaseAllOk then some [.releaseAll .harmony none] else none
      else some []
    match harmonyRelease with
    | none => ⟨st, m, ev1, false⟩
    | some ev2 =>
      ⟨{ st with rightHandIsPlaying := false, leftHandIsPlaying := false,
                 currentMelodyNote := none, currentChord := none },
        { melodySynth := some ((m.melodySynth.getD 0) + 1),
          harmonySynth := some ((m.harmonySynth.getD 0) + 1),
          reverbUnit := m.reverbUnit },
        ev1 ++ ev2 ++
          (if m.melodySynth ≠ none then [.dispose .melody] else []) ++
          (if m.harmonySynth ≠ none then [.dispose .harmony] else []) ++
          [.create .melody, .create .harmony,
           .volumeWrite .melody st.rightHandVolume,
           .volumeWrite .harmony (st.leftHandVolume * (3/5))], false⟩

/-- `setVolume` from `src/audio/synth.js`.  Clamps the requested gain to
`[0,1]` and writes it to the engine only when it differs (strict inequality)
from the stored per-hand gain.  Note the source stores the left-hand gain in
`state.rightHandVolume` and vice versa; the guard and the store use the same
(swapped) field, so gating is still per voice.  A throwing engine write is
caught after the store. -/
def setVolume (eng : EngineBehavior) (hand : String) (volume : ℚ)
    (st : AppState) (m : Modules) : OpResult :=
  if st.audioStarted = false then
    ⟨st, m, [], false⟩
  else
    let v := max 0 (min volume 1)
    if hand = "left" then
      if st.rightHandVolume ≠ v then
        let st1 := { st with rightHandVolume := v }
        if m.harmonySynth ≠ none then
          if eng.volumeOk then
            ⟨st1, m, [.volumeWrite .harmony (v * (3/5))], false⟩
          else ⟨st1, m, [], false⟩
        else ⟨st1, m, [], false⟩
      else ⟨st, m, [], false⟩
    else if hand = "right" then
      if st.leftHandVolume ≠ v then
        let st1 := { st with leftHandVolume := v }
        if m.melodySynth ≠ none then
          if eng.volumeOk then
            ⟨st1, m, [.volumeWrite .melody v], false⟩
          else ⟨st1, m, [], false⟩
        else ⟨st1, m, [], false⟩
      else ⟨st, m, [], false⟩
    else ⟨st, m, [], false⟩

/-- `setReverb` from `src/audio/synth.js`.  Clamps the wet level to `[0,1]`
and writes it to the shared reverb unconditionally — there is no comparison
against the previously applied value.  The `hand` argument is ignored by the
body (both hands write the same shared reverb). -/
def setReverb (eng : EngineBehavior) (hand : String) (wetLevel : ℚ)
    (st : AppState) (m : Modules) : OpResult :=
  if st.audioStarted = false ∨ m.reverbUnit = none then
    ⟨st, m, [], false⟩
  else
    let w := max 0 (min wetLevel 1)
    if eng.reverbOk then
      ⟨st, { m with reverbUnit := some w }, [.wetWrite w], false⟩
    else
      ⟨st, m, [], false⟩

/-- A default landmark used only to satisfy totality of list indexing at
`landmarks[0]`, which the caller has already guarded with a length check. -/
def dummyPoint : Point := { x := 0, y := 0, z := none }

/-- `processLeftHand` from the hand-tracking module: marks the left hand
present, and for a sufficiently long landmark list computes the pinch
(thumb tip 4 to index tip 8) and spread (middle tip 12 to thumb tip 4)
distances, applies reverb and left-hand volume, derives the chord from the
wrist height and plays it.  A `TypeError` thrown by `getChordFromPosition`
propagates out of this function (it is caught only in `onHandResults`).
Canvas drawing calls are not modelled. -/
def processLeftHand (eng : EngineBehavior) (landmarks : List Point)
    (st : AppState) (m : Modules) : OpResult :=
  let st := { st with isLeftHandPresent := true, leftHandLandmarks := some landmarks }
  if 8 < landmarks.length then
    let wrist := landmarks.getD 0 dummyPoint
    let thumbTip := landmarks.get? 4
    let indexTip := landmarks.get? 8
    let pinchDist := calculateDistance thumbTip indexTip
    let r1 := setReverb eng "left" (mapPinchToReverb pinchDist) st m
    let middleFinger := landmarks.get? 12
    let fingerDist := calculateDistance middleFinger thumbTip
    let r2 := setVolume eng "left" (mapFingerToVolume fingerDist) r1.st r1.m
    let (st3, chordE) := getChordFromPosition wrist.y r2.st
    match chordE with
    | .error _ => ⟨st3, r2.m, r1.events ++ r2.events, true⟩
    | .ok chord =>
        let r4 := playChord eng chord st3 r2.m
        ⟨r4.st, r4.m, r1.events ++ r2.events ++ r4.events, r4.thrown⟩
  else
    ⟨st, m, [], false⟩

/-- `processRightHand` from the hand-tracking module: marks the right hand
present, applies reverb and right-hand volume from the same two distances,
derives the melody note from the wrist height and plays it. -/
def processRightHand (eng : EngineBehavior) (landmarks : List Point)
    (st : AppState) (m : Modules) : OpResult :=
  let st := { st with isRightHandPresent := true, rightHandLandmarks := some landmarks }
  if 8 < landmarks.length then
    let wrist := landmarks.getD 0 dummyPoint
    let thumbTip := landmarks.get? 4
    let indexTip := landmarks.get? 8
    let pinchDist := calculateDistance thumbTip indexTip
    let r1 := setReverb eng "right" (mapPinchToReverb pinchDist) st m
    let middleFinger := landmarks.get? 12
    let fingerDist := calculateDistance middleFinger thumbTip
    let r2 := setVolume eng "right" (mapFingerToVolume fingerDist) r1.st r1.m
    let (st3, noteE) := getNoteFromPosition wrist.y r2.st.selectedScale r2.st
    match noteE with
    | .error _ => ⟨st3, r2.m, r1.events ++ r2.events, true⟩
    | .ok note =>
        let r4 := playMelodyNote eng note st3 r2.m
        ⟨r4.st, r4.m, r1.events ++ r2.events ++ r4.events, r4.thrown⟩
  else
    ⟨st, m, [], false⟩

/-- The per-hand dispatch inside the detection loop of `onHandResults`:
`isLeft` is the handedness label compared against the string `Left`, and the
branch is `if (!isLeft) processLeftHand(...) else processRightHand(...)` —
so a hand labeled `Left` is processed by `processRightHand` (the melody
side) and every other label by `processLeftHand` (the harmony side). -/
def processDetectedHand (eng : EngineBehavior) (label : String)
    (landmarks : List Point) (st : AppState) (m : Modules) : OpResult :=
  let isLeft := label = "Left"
  if ¬ isLeft then processLeftHand eng landmarks st m
  else processRightHand eng landmarks st m

/-- The continuous state of the `BlackHole` visualizer class that the claims
concern: the decaying pulse intensity and the eased reactive scale. -/
structure BlackHole where
  pulseIntensity : ℚ
  reactiveScale : ℚ
deriving DecidableEq, Repr

/-- The `pulse` method of `BlackHole`: overwrites (does not accumulate, does
not clamp) the stored intensity. -/
def BlackHole.pulse (intensity : ℚ) (bh : BlackHole) : BlackHole :=
  { bh with pulseIntensity := intensity }

/-- The state update performed by one `tick` of the `BlackHole` render loop:
`pulseIntensity *= 0.95`, then `reactiveScale` is eased toward 1.2 when
either voice is playing and toward 1.0 otherwise (lerp factor 0.05).  The
geometry updates and canvas drawing in `tick` do not touch these fields and
are not modelled. -/
def BlackHole.tick (leftPlaying rightPlaying : Bool) (bh : BlackHole) : BlackHole :=
  let p := bh.pulseIntensity * (19/20)
  let target : ℚ := if leftPlaying = true ∨ rightPlaying = true then 6/5 else 1
  { pulseIntensity := p
    reactiveScale := lerp bh.reactiveScale target (1/20) }

/-- True exactly for attack events. -/
def isAttack : AEvent → Bool
  | .attack _ _ _ _ => true
  | _ => false

/-- True exactly for melody-voice attack events. -/
def isMelodyAttack : AEvent → Bool
  | .attack .melody _ _ _ => true
  | _ => false

/-- True for events addressed to the harmony synth (the shared reverb write
and the pulse events are not per-voice). -/
def isHarmonyEngineEvent : AEvent → Bool
  | .attack .harmony _ _ _ => true
  | .release .harmony _ => true
  | .releaseAll .harmony _ => true
  | .dispose .harmony => true
  | .create .harmony => true
  | .volumeWrite .harmony _ => true
  | _ => false

/-- True for events addressed to the melody synth. -/
def isMelodyEngineEvent : AEvent → Bool
  | .attack .melody _ _ _ => true
  | .release .melody _ => true
  | .releaseAll .melody _ => true
  | .dispose .melody => true
  | .create .melody => true
  | .volumeWrite .melody _ => true
  | _ => false

/-- True when the event, if it is a pulse, has intensity within `[lo, hi]`. -/
def pulseWithin (lo hi : ℚ) : AEvent → Bool
  | .pulse i => decide (lo ≤ i ∧ i ≤ hi)
  | _ => true

/-- The engine on which every call throws (e.g. audio context not started). -/
def badEngine : EngineBehavior :=
  { attackOk := false, releaseOk := false, releaseAllOk := false,
    volumeOk := false, reverbOk := false }

/-- An engine on which releases succeed but attacks throw — the scenario of
a change transition whose release lands and whose re-attack fails. -/
def releaseOnlyEngine : EngineBehavior :=
  { attackOk := false, releaseOk := true, releaseAllOk := true,
    volumeOk := true, reverbOk := true }

/-- Module bindings after a successful `setupAudio`: both synths exist and the
reverb was created with its initial wet level 0.1. -/
def modulesReady : Modules :=
  { melodySynth := some 0, harmonySynth := some 0, reverbUnit := some (1/10) }

/-- A state with the audio context started and both voices idle. -/
def audioReadySt : AppState :=
  { initialState with audioStarted := true }

/-- A C-major chord as produced by `getChordFromPosition` at the bottom
position in C major. -/
def sampleChord : Chord :=
  { root := "C", type := "major", notes := ["C4", "E4", "G4"], name := "Cmajor" }

/-- An independently constructed chord value with the same note sequence as
`sampleChord` but different root/type/name metadata. -/
def sampleChordAlias : Chord :=
  { root := "X", type := "weird", notes := ["C4", "E4", "G4"], name := "odd" }

/-- A diminished chord (the B diminished triad of C major). -/
def dimChord : Chord :=
  { root := "B", type := "diminished", notes := ["B3", "D4", "F4"], name := "Bdim" }

/-- A state in which both voices are playing, with recorded previous values. -/
def playingSt : AppState :=
  { audioReadySt with
      leftHandIsPlaying := true
      rightHandIsPlaying := true
      lastChord := some sampleChordAlias
      currentChord := some sampleChordAlias
      lastMelodyNote := some "D4"
      currentMelodyNote := some "D4" }

/-- A full 21-landmark hand sample with every landmark at the image center
(so the pinch and spread distances are 0). -/
def handLandmarksSample : List Point :=
  List.replicate 21 { x := 1/2, y := 1/2, z := none }

/-- The chord type of a non-throwing `getChordFromPosition` result. -/
def chordTypeOf : Except String Chord → Option String
  | .ok c => some c.type
  | .error _ => none

/-- Whether a fallible computation returned normally. -/
def exceptOk {ε α : Type} : Except ε α → Bool
  | .ok _ => true
  | .error _ => false

/-! ## Theorems -/

/-- C1: with scale `major`, root `C`, octave 4 the melody mapping is
boundary-inverted — `verticalPos = 0.0` floors to scale-step index 14 and
`verticalPos = 1.0` to index 0 — and the notes at positional indices 0 and 7
are `C4` and `C5` (index 0 is reached at `y = 1.0`, index 7 at `y = 1/2`,
whose mapped value is exactly 7). -/
theorem melody_mapping_boundary_and_notes :
    Rat.floor (mapRange 0 0 1 14 0) = 14 ∧
    Rat.floor (mapRange 1 0 1 14 0) = 0 ∧
    Rat.floor (mapRange (1/2) 0 1 14 0) = 7 ∧
    (getNoteFromPosition 1 "major" initialState).2 = .ok "C4" ∧
    (getNoteFromPosition (1/2) "major" initialState).2 = .ok "C5" := by
  refine ⟨?_, ?_, ?_, ?_, ?_⟩ <;> with_unfolding_all decide

/-- C9 helper: each visual tick multiplies the stored pulse intensity by
0.95, whatever the playing flags. -/
theorem tick_iterate_pulse (l r : Bool) (N : ℕ) (bh : BlackHole) :
    ((BlackHole.tick l r)^[N] bh).pulseIntensity = bh.pulseIntensity * (19/20) ^ N := by
  induction N generalizing bh with
  | zero => simp
  | succ n ih =>
      rw [Function.iterate_succ_apply, ih]
      simp only [BlackHole.tick]
      ring

/-- C9: starting from `pulseIntensity = 1.0` with no further pulse events,
after `N` render ticks the stored intensity equals `0.95 ^ N`, and for every
finite `N` it is strictly positive. -/
theorem pulse_decay_powers (l r : Bool) (s : ℚ) (N : ℕ) :
    ((BlackHole.tick l r)^[N] { pulseIntensity := 1, reactiveScale := s }).pulseIntensity
        = (19/20) ^ N ∧
    0 < ((BlackHole.tick l r)^[N] { pulseIntensity := 1, reactiveScale := s }).pulseIntensity := by
  have h := tick_iterate_pulse l r N { pulseIntensity := 1, reactiveScale := s }
  simp only [h]
  constructor
  · ring
  · positivity

/-- C10: `calculateDistance` is total on missing inputs — with either point
absent it returns `Infinity` rather than throwing — and both downstream
mappings saturate that distance to level 1. -/
theorem distance_missing_saturates (p1 p2 : Option Point)
    (h : p1 = none ∨ p2 = none) :
    calculateDistance p1 p2 = .inf ∧
    mapPinchToReverb (calculateDistance p1 p2) = 1 ∧
    mapFingerToVolume (calculateDistance p1 p2) = 1 := by
  have hd : calculateDistance p1 p2 = .inf := by
    rcases h with h | h
    · subst h; cases p2 <;> rfl
    · subst h; cases p1 <;> rfl
  refine ⟨hd, ?_, ?_⟩ <;> rw [hd] <;> with_unfolding_all decide

/-- Witness for C10 at the concrete input `(none, none)`. -/
theorem distance_missing_saturates_witness :
    calculateDistance none none = .inf ∧
    mapPinchToReverb (calculateDistance none none) = 1 ∧
    mapFingerToVolume (calculateDistance none none) = 1 :=
  distance_missing_saturates none none (Or.inl rfl)

/-- C5 counterexample: the scale identifier `dorian` is not one of the four
named chord-table scales, yet `getChordFromPosition` (and likewise
`getNoteFromPosition`) throws a `TypeError` on it instead of degrading to the
parity fallback, because `scales[scale]` is `undefined` and reading
`.length` throws. -/
theorem unknown_scale_throws :
    (getChordFromPosition (1/2) { initialState with selectedScale := "dorian" }).2
        = .error "TypeError" ∧
    (getNoteFromPosition (1/2) "dorian" initialState).2 = .error "TypeError" := by
  constructor <;> with_unfolding_all decide

/-- C5 amended: a scale identifier that is present in the `scales` table but
is not one of the four named chord-table scales does not throw — the chord
type degrades to the major/minor parity fallback and the note function
succeeds — while an identifier absent from the table makes both functions
throw a `TypeError`. -/
theorem scale_fallback_amended :
    (∀ (y : ℚ) (st : AppState) (arr : List ℤ),
        scalesMap st.selectedScale = some arr →
        st.selectedScale ≠ "major" → st.selectedScale ≠ "minor" →
        st.selectedScale ≠ "majorBlues" → st.selectedScale ≠ "minorBlues" →
        chordTypeOf (getChordFromPosition y st).2 =
          some (if Int.tmod (Int.tmod (Rat.floor (mapRange y 0 1 7 0)) (arr.length : ℤ)) 2 = 0
                then "major" else "minor") ∧
        exceptOk (getNoteFromPosition y st.selectedScale st).2 = true) ∧
    (∀ (y : ℚ) (st : AppState),
        scalesMap st.selectedScale = none →
        (getChordFromPosition y st).2 = .error "TypeError" ∧
        (getNoteFromPosition y st.selectedScale st).2 = .error "TypeError") := by
  constructor
  · intro y st arr hs h1 h2 h3 h4
    constructor
    · simp [getChordFromPosition, hs, h1, h2, h3, h4, chordTypeOf]
    · simp [getNoteFromPosition, hs, exceptOk]
  · intro y st hs
    constructor
    · simp [getChordFromPosition, hs]
    · simp [getNoteFromPosition, hs]

/-- Witness for C5 amended: the in-table scale `pentatonic` at `y = 1/2`
takes the parity fallback without throwing, and the out-of-table scale
`foo` throws in both functions. -/
theorem scale_fallback_amended_witness :
    (chordTypeOf (getChordFromPosition (1/2)
          { initialState with selectedScale := "pentatonic" }).2 =
        some (if Int.tmod (Int.tmod (Rat.floor (mapRange (1/2) 0 1 7 0))
                  (((scalesMap "pentatonic").getD []).length : ℤ)) 2 = 0
              then "major" else "minor") ∧
      exceptOk (getNoteFromPosition (1/2) "pentatonic"
          { initialState with selectedScale := "pentatonic" }).2 = true) ∧
    ((getChordFromPosition (1/2) { initialState with selectedScale := "foo" }).2
        = .error "TypeError" ∧
     (getNoteFromPosition (1/2) "foo" { initialState with selectedScale := "foo" }).2
        = .error "TypeError") :=
  ⟨scale_fallback_amended.1 (1/2) { initialState with selectedScale := "pentatonic" }
      ((scalesMap "pentatonic").getD []) rfl
      (by decide) (by decide) (by decide) (by decide),
   scale_fallback_amended.2 (1/2) { initialState with selectedScale := "foo" } rfl⟩

/-- C2: when the chord voice is already playing and the incoming chord has
the same note sequence as the last chord (even if the two chord values were
constructed independently and differ in other fields), `playChord` performs
no engine call at all — no release, no attack, no synth rebuild — and leaves
the state and modules untouched. -/
theorem chord_unchanged_no_retrigger (eng : EngineBehavior) (chord c : Chord)
    (st : AppState) (m : Modules)
    (hplay : st.leftHandIsPlaying = true)
    (hlast : st.lastChord = some c)
    (hnotes : c.notes = chord.notes) :
    playChord eng chord st m = ⟨st, m, [], false⟩ := by
  unfold playChord
  by_cases h : st.audioStarted = false ∨ m.harmonySynth = none
  · simp [h]
  · simp [h, hplay, hlast, hnotes]

/-- Witness for C2: a playing state whose last chord shares the note list
`[C4, E4, G4]` with the incoming chord but was built independently with
different metadata. -/
theorem chord_unchanged_no_retrigger_witness :
    playChord reliable sampleChord playingSt modulesReady
      = ⟨playingSt, modulesReady, [], false⟩ :=
  chord_unchanged_no_retrigger reliable sampleChord sampleChordAlias playingSt modulesReady
    rfl rfl rfl

/-- C3: playing the same note on two successive frames issues exactly one
attack: the first call (from an idle voice, or from a voice sounding a
different note) attacks once, and the second call with the unchanged note
performs no audio-engine call at all. -/
theorem melody_unchanged_idempotent (note : String) (st : AppState) (m : Modules) (g : ℕ)
    (haudio : st.audioStarted = true) (hsynth : m.melodySynth = some g)
    (hfresh : st.rightHandIsPlaying = false ∨ st.lastMelodyNote ≠ some note) :
    ((playMelodyNote reliable note st m).events.filter isAttack).length = 1 ∧
    (playMelodyNote reliable note
        (playMelodyNote reliable note st m).st
        (playMelodyNote reliable note st m).m).events = [] := by
  rcases hfresh with hp | hnote
  · simp [playMelodyNote, haudio, hsynth, hp, reliable, isAttack]
  · by_cases hp : st.rightHandIsPlaying = false
    · simp [playMelodyNote, haudio, hsynth, hp, reliable, isAttack]
    · have hnote' : ¬(some note = st.lastMelodyNote) := fun h => hnote h.symm
      simp [playMelodyNote, haudio, hsynth, hp, hnote', reliable, isAttack]

/-- Witness for C3: the note `C5` played twice from the idle audio-ready
state. -/
theorem melody_unchanged_idempotent_witness :
    ((playMelodyNote reliable "C5" audioReadySt modulesReady).events.filter isAttack).length = 1 ∧
    (playMelodyNote reliable "C5"
        (playMelodyNote reliable "C5" audioReadySt modulesReady).st
        (playMelodyNote reliable "C5" audioReadySt modulesReady).m).events = [] :=
  melody_unchanged_idempotent "C5" audioReadySt modulesReady 0 rfl rfl (Or.inl rfl)

/-- C6 counterexample: the shared reverb wet level is written to the engine
even when the requested value equals the last-applied one — `setReverb` has
no change check, so with the stored wet level already 1/2 a call with 1/2
still issues an engine write. -/
theorem reverb_write_unchanged :
    ({ modulesReady with reverbUnit := some (1/2) } : Modules).reverbUnit = some (1/2) ∧
    (setReverb reliable "left" (1/2) audioReadySt
        { modulesReady with reverbUnit := some (1/2) }).events = [.wetWrite (1/2)] := by
  constructor <;> with_unfolding_all decide

/-- C6 amended: the per-voice gain is written to the engine only when the
clamped value differs (strict inequality) from the stored last-applied gain
— an unchanged value produces no engine write — but the shared reverb wet
level is written unconditionally on every call, whatever the previously
applied value. -/
theorem control_write_gating_amended :
    (∀ (eng : EngineBehavior) (v : ℚ) (st : AppState) (m : Modules),
        st.audioStarted = true → st.rightHandVolume = max 0 (min v 1) →
        setVolume eng "left" v st m = ⟨st, m, [], false⟩) ∧
    (∀ (eng : EngineBehavior) (v : ℚ) (st : AppState) (m : Modules),
        st.audioStarted = true → st.leftHandVolume = max 0 (min v 1) →
        setVolume eng "right" v st m = ⟨st, m, [], false⟩) ∧
    (∀ (w : ℚ) (st : AppState) (m : Modules) (r : ℚ),
        st.audioStarted = true → m.reverbUnit = some r →
        setReverb reliable "left" w st m =
          ⟨st, { m with reverbUnit := some (max 0 (min w 1)) },
            [.wetWrite (max 0 (min w 1))], false⟩) := by
  refine ⟨?_, ?_, ?_⟩
  · intro eng v st m haudio hvol
    simp [setVolume, haudio, hvol]
  · intro eng v st m haudio hvol
    simp [setVolume, haudio, hvol]
  · intro w st m r haudio hrev
    simp [setReverb, haudio, hrev, reliable]

/-- Witness for C6 amended: unchanged gains produce no write from either
hand branch, and the reverb write happens even though the stored wet level
already equals the clamped request. -/
theorem control_write_gating_amended_witness :
    (setVolume reliable "left" (1/2) audioReadySt modulesReady
        = ⟨audioReadySt, modulesReady, [], false⟩) ∧
    (setVolume reliable "right" (1/2) audioReadySt modulesReady
        = ⟨audioReadySt, modulesReady, [], false⟩) ∧
    (setReverb reliable "left" (1/10) audioReadySt modulesReady
        = ⟨audioReadySt, { modulesReady with reverbUnit := some (max 0 (min (1/10) 1)) },
            [.wetWrite (max 0 (min (1/10) 1))], false⟩) :=
  ⟨control_write_gating_amended.1 reliable (1/2) audioReadySt modulesReady rfl
      (by with_unfolding_all decide),
   control_write_gating_amended.2.1 reliable (1/2) audioReadySt modulesReady rfl
      (by with_unfolding_all decide),
   control_write_gating_amended.2.2 (1/10) audioReadySt modulesReady (1/10) rfl rfl⟩

/-- C8 counterexample, both halves of the claim at concrete inputs:
`stopMelody` and `stopChord` have no try/catch, so a throwing release
propagates out of the per-frame operation; and in the changed-note branch
of `playMelodyNote`, a successful release followed by a failed attack
leaves `rightHandIsPlaying = true` (with `lastMelodyNote` already updated),
so the next frame with the same note emits nothing — the logical state says
playing while nothing sounds, and there is no retry. -/
theorem failure_boundary_counterexample :
    (stopMelody badEngine playingSt modulesReady).thrown = true ∧
    (stopChord badEngine playingSt modulesReady).thrown = true ∧
    (playMelodyNote releaseOnlyEngine "E4" playingSt modulesReady).events
        = [.release .melody (some (1/50))] ∧
    (playMelodyNote releaseOnlyEngine "E4" playingSt modulesReady).st.rightHandIsPlaying
        = true ∧
    (playMelodyNote releaseOnlyEngine "E4"
        (playMelodyNote releaseOnlyEngine "E4" playingSt modulesReady).st
        (playMelodyNote releaseOnlyEngine "E4" playingSt modulesReady).m).events = [] := by
  refine ⟨?_, ?_, ?_, ?_, ?_⟩ <;> with_unfolding_all decide

/-- C8 amended: engine failures inside `playMelodyNote`, `playChord`,
`updateSynths`, `setVolume` and `setReverb` are caught and never propagate;
a failed *initial* attack leaves the attacking voice's playing flag false
with no event issued, so the next frame retries cleanly.  But `stopMelody`
and `stopChord` do not catch release failures, and a failed *change-
transition* attack in `playMelodyNote` leaves the voice marked playing with
the note cache already updated, so the next frame with the same note is a
no-op rather than a retry (see the counterexample). -/
theorem failure_semantics_amended (eng : EngineBehavior) (note : String)
    (chord : Chord) (hand : String) (v w : ℚ) (st : AppState) (m : Modules) :
    (playMelodyNote eng note st m).thrown = false ∧
    (playChord eng chord st m).thrown = false ∧
    (updateSynths eng st m).thrown = false ∧
    (setVolume eng hand v st m).thrown = false ∧
    (setReverb eng hand w st m).thrown = false ∧
    (st.rightHandIsPlaying = false → eng.attackOk = false →
        (playMelodyNote eng note st m).st.rightHandIsPlaying = false ∧
        (playMelodyNote eng note st m).events = []) ∧
    (st.leftHandIsPlaying = false → eng.attackOk = false →
        (playChord eng chord st m).st.leftHandIsPlaying = false ∧
        (playChord eng chord st m).events = []) ∧
    (st.audioStarted = true → m.melodySynth ≠ none →
     st.rightHandIsPlaying = true → st.lastMelodyNote ≠ some note →
     eng.releaseOk = true → eng.attackOk = false →
        (playMelodyNote eng note st m).st.rightHandIsPlaying = true ∧
        (playMelodyNote eng note st m).st.lastMelodyNote = some note ∧
        (playMelodyNote eng note st m).events = [.release .melody (some (1/50))] ∧
        (playMelodyNote eng note
            (playMelodyNote eng note st m).st
            (playMelodyNote eng note st m).m).events = []) := by
  refine ⟨?_, ?_, ?_, ?_, ?_, ?_, ?_, ?_⟩
  · simp only [playMelodyNote]
    repeat' split
    all_goals rfl
  · simp only [playChord]
    repeat' split
    all_goals rfl
  · simp only [updateSynths]
    repeat' split
    all_goals rfl
  · simp only [setVolume]
    repeat' split
    all_goals rfl
  · simp only [setReverb]
    repeat' split
    all_goals rfl
  · intro hp hak
    by_cases h : st.audioStarted = false ∨ m.melodySynth = none
    · simp [playMelodyNote, h, hp]
    · simp [playMelodyNote, h, hp, hak]
  · intro hp hak
    by_cases h : st.audioStarted = false ∨ m.harmonySynth = none
    · simp [playChord, h, hp]
    · simp [playChord, h, hp, hak]
  · intro haudio hsynth hp hnote hrel hak
    have h : ¬(st.audioStarted = false ∨ m.melodySynth = none) := by
      simp [haudio, hsynth]
    have hnote' : ¬(some note = st.lastMelodyNote) := fun hh => hnote hh.symm
    simp [playMelodyNote, h, haudio, hsynth, hp, hnote', hrel, hak]

/-- Witness for C8 amended: the all-failing engine on an idle audio-ready
state (nothing throws, failed initial attacks leave both voices idle), and
the release-only engine on a playing state with a changed note (the voice
stays marked playing and the next identical frame emits nothing). -/
theorem failure_semantics_amended_witness :
    (playMelodyNote badEngine "C4" audioReadySt modulesReady).thrown = false ∧
    (playChord badEngine sampleChord audioReadySt modulesReady).thrown = false ∧
    (updateSynths badEngine audioReadySt modulesReady).thrown = false ∧
    (setVolume badEngine "left" (3/4) audioReadySt modulesReady).thrown = false ∧
    (setReverb badEngine "left" (3/4) audioReadySt modulesReady).thrown = false ∧
    ((playMelodyNote badEngine "C4" audioReadySt modulesReady).st.rightHandIsPlaying = false ∧
     (playMelodyNote badEngine "C4" audioReadySt modulesReady).events = []) ∧
    ((playChord badEngine sampleChord audioReadySt modulesReady).st.leftHandIsPlaying = false ∧
     (playChord badEngine sampleChord audioReadySt modulesReady).events = []) ∧
    ((playMelodyNote releaseOnlyEngine "E4" playingSt modulesReady).st.rightHandIsPlaying = true ∧
     (playMelodyNote releaseOnlyEngine "E4" playingSt modulesReady).st.lastMelodyNote = some "E4" ∧
     (playMelodyNote releaseOnlyEngine "E4" playingSt modulesReady).events
        = [.release .melody (some (1/50))] ∧
     (playMelodyNote releaseOnlyEngine "E4"
        (playMelodyNote releaseOnlyEngine "E4" playingSt modulesReady).st
        (playMelodyNote releaseOnlyEngine "E4" playingSt modulesReady).m).events = []) := by
  have h := failure_semantics_amended badEngine "C4" sampleChord "left" (3/4) (3/4)
      audioReadySt modulesReady
  have h2 := failure_semantics_amended releaseOnlyEngine "E4" sampleChord "left" (3/4) (3/4)
      playingSt modulesReady
  exact ⟨h.1, h.2.1, h.2.2.1, h.2.2.2.1, h.2.2.2.2.1,
    h.2.2.2.2.2.1 rfl rfl,
    h.2.2.2.2.2.2.1 rfl rfl,
    h2.2.2.2.2.2.2.2 rfl (by with_unfolding_all decide) rfl
      (by with_unfolding_all decide) rfl rfl⟩

/-- C7 counterexample: a chord change to a diminished chord emits pulse
intensity 1.2, which is outside `[0,1]`, and `BlackHole.pulse` stores it
unclamped. -/
theorem diminished_pulse_exceeds_unit :
    ((playChord reliable dimChord playingSt modulesReady).events.contains
        (.pulse (6/5))) = true ∧
    ¬((6/5 : ℚ) ≤ 1) ∧
    (BlackHole.pulse (6/5) { pulseIntensity := 0, reactiveScale := 1 }).pulseIntensity
        = 6/5 := by
  refine ⟨?_, ?_, rfl⟩ <;> with_unfolding_all decide

/-- C7 amended: every pulse intensity emitted by the voice controller lies in
`[0, 1.2]`; melody pulses always lie in `[0,1]`, and chord pulses lie in
`[0,1]` except for a change to a diminished-type chord (intensity 1.2).  The
visualizer stores the emitted intensity unclamped. -/
theorem pulse_intensity_amended (eng : EngineBehavior) (note : String)
    (chord : Chord) (st : AppState) (m : Modules) :
    ((playMelodyNote eng note st m).events.all (pulseWithin 0 1)) = true ∧
    ((playChord eng chord st m).events.all (pulseWithin 0 (6/5))) = true ∧
    (chord.type ≠ "diminished" →
        ((playChord eng chord st m).events.all (pulseWithin 0 1)) = true) ∧
    (∀ (i : ℚ) (bh : BlackHole), (BlackHole.pulse i bh).pulseIntensity = i) := by
  refine ⟨?_, ?_, ?_, fun i bh => rfl⟩
  · simp only [playMelodyNote]
    repeat' split
    all_goals simp [pulseWithin]
    all_goals norm_num
  · simp only [playChord, chordChangePulse]
    repeat' split
    all_goals simp [pulseWithin]
    all_goals norm_num
  · intro hdim
    simp only [playChord, chordChangePulse]
    repeat' split
    all_goals simp_all [pulseWithin]
    all_goals norm_num

/-- Witness for C7 amended at a concrete non-diminished chord change. -/
theorem pulse_intensity_amended_witness :
    ((playMelodyNote reliable "C4" playingSt modulesReady).events.all
        (pulseWithin 0 1)) = true ∧
    ((playChord reliable sampleChord playingSt modulesReady).events.all
        (pulseWithin 0 (6/5))) = true ∧
    ((playChord reliable sampleChord playingSt modulesReady).events.all
        (pulseWithin 0 1)) = true ∧
    (∀ (i : ℚ) (bh : BlackHole), (BlackHole.pulse i bh).pulseIntensity = i) := by
  have h := pulse_intensity_amended reliable "C4" sampleChord playingSt modulesReady
  exact ⟨h.1, h.2.1, h.2.2.1 (by with_unfolding_all decide), h.2.2.2⟩

/-- C4 helper: `setReverb` issues no per-voice engine event (its only event
is the shared wet-level write). -/
theorem setReverb_no_voice_events (eng : EngineBehavior) (hand : String) (w : ℚ)
    (st : AppState) (m : Modules) :
    ((setReverb eng hand w st m).events.all fun e => !(isHarmonyEngineEvent e)) = true ∧
    ((setReverb eng hand w st m).events.all fun e => !(isMelodyEngineEvent e)) = true := by
  constructor <;> (simp only [setReverb]; repeat' split) <;> rfl

/-- C4 helper: the `right` branch of `setVolume` writes only the melody
synth volume, and the `left` branch only the harmony synth volume. -/
theorem setVolume_voice_events (eng : EngineBehavior) (v : ℚ)
    (st : AppState) (m : Modules) :
    ((setVolume eng "right" v st m).events.all fun e => !(isHarmonyEngineEvent e)) = true ∧
    ((setVolume eng "left" v st m).events.all fun e => !(isMelodyEngineEvent e)) = true := by
  constructor <;> (simp only [setVolume]; repeat' split) <;>
    first
    | rfl
    | simp_all

/-- C4 helper: `playMelodyNote` never issues a harmony-voice event. -/
theorem playMelodyNote_no_harmony (eng : EngineBehavior) (note : String)
    (st : AppState) (m : Modules) :
    ((playMelodyNote eng note st m).events.all fun e => !(isHarmonyEngineEvent e)) = true := by
  simp only [playMelodyNote]
  repeat' split
  all_goals rfl

/-- C4 helper: `playChord` never issues a melody-voice event. -/
theorem playChord_no_melody (eng : EngineBehavior) (chord : Chord)
    (st : AppState) (m : Modules) :
    ((playChord eng chord st m).events.all fun e => !(isMelodyEngineEvent e)) = true := by
  simp only [playChord]
  repeat' split
  all_goals rfl

/-- C4 counterexample: a hand labeled `Left` by the tracking oracle is
dispatched to `processRightHand` and therefore drives the melody voice, not
the harmony voice — its processing emits a melody attack and no
harmony-voice event at all. -/
theorem left_label_drives_melody :
    ((processDetectedHand reliable "Left" handLandmarksSample audioReadySt modulesReady).events.all
        fun e => !(isHarmonyEngineEvent e)) = true ∧
    ((processDetectedHand reliable "Left" handLandmarksSample audioReadySt modulesReady).events.any
        isMelodyAttack) = true := by
  constructor <;> with_unfolding_all decide

/-- C4 amended: the dispatch in `onHandResults` is inverted with respect to
the handedness label — a hand labeled `Left` is processed by
`processRightHand`, whose vertical position selects the melody note and
whose spread sets the melody gain, and any other label is processed by
`processLeftHand`, which drives the harmony voice; the right-hand processing
issues no harmony-voice engine event and the left-hand processing no
melody-voice engine event. -/
theorem hand_label_dispatch_amended :
    (∀ (eng : EngineBehavior) (label : String) (lm : List Point)
        (st : AppState) (m : Modules), label = "Left" →
        processDetectedHand eng label lm st m = processRightHand eng lm st m) ∧
    (∀ (eng : EngineBehavior) (label : String) (lm : List Point)
        (st : AppState) (m : Modules), label ≠ "Left" →
        processDetectedHand eng label lm st m = processLeftHand eng lm st m) ∧
    (∀ (eng : EngineBehavior) (lm : List Point) (st : AppState) (m : Modules),
        ((processRightHand eng lm st m).events.all
            fun e => !(isHarmonyEngineEvent e)) = true) ∧
    (∀ (eng : EngineBehavior) (lm : List Point) (st : AppState) (m : Modules),
        ((processLeftHand eng lm st m).events.all
            fun e => !(isMelodyEngineEvent e)) = true) := by
  refine ⟨?_, ?_, ?_, ?_⟩
  · intro eng label lm st m h
    simp [processDetectedHand, h]
  · intro eng label lm st m h
    simp [processDetectedHand, h]
  · intro eng lm st m
    simp only [processRightHand]
    split
    · split
      · simp [List.all_append, (setReverb_no_voice_events eng "right" _ _ _).1,
          (setVolume_voice_events eng _ _ _).1]
      · simp [List.all_append, (setReverb_no_voice_events eng "right" _ _ _).1,
          (setVolume_voice_events eng _ _ _).1, playMelodyNote_no_harmony]
    · rfl
  · intro eng lm st m
    simp only [processLeftHand]
    split
    · split
      · simp [List.all_append, (setReverb_no_voice_events eng "left" _ _ _).2,
          (setVolume_voice_events eng _ _ _).2]
      · simp [List.all_append, (setReverb_no_voice_events eng "left" _ _ _).2,
          (setVolume_voice_events eng _ _ _).2, playChord_no_melody]
    · rfl

/-- Witness for C4 amended at concrete labels and a concrete frame. -/
theorem hand_label_dispatch_amended_witness :
    (processDetectedHand reliable "Left" handLandmarksSample audioReadySt modulesReady
        = processRightHand reliable handLandmarksSample audioReadySt modulesReady) ∧
    (processDetectedHand reliable "Right" handLandmarksSample audioReadySt modulesReady
        = processLeftHand reliable handLandmarksSample audioReadySt modulesReady) ∧
    ((processRightHand reliable handLandmarksSample audioReadySt modulesReady).events.all
        fun e => !(isHarmonyEngineEvent e)) = true ∧
    ((processLeftHand reliable handLandmarksSample audioReadySt modulesReady).events.all
        fun e => !(isMelodyEngineEvent e)) = true :=
  ⟨hand_label_dispatch_amended.1 reliable "Left" handLandmarksSample audioReadySt
      modulesReady rfl,
   hand_label_dispatch_amended.2.1 reliable "Right" handLandmarksSample audioReadySt
      modulesReady (by decide),
   hand_label_dispatch_amended.2.2.1 reliable handLandmarksSample audioReadySt modulesReady,
   hand_label_dispatch_amended.2.2.2 reliable handLandmarksSample audioReadySt modulesReady⟩

end HandSynth
